import Mathlib

/-!
Verification of the `debtx-mail-create` email dispatch service.

The development shallowly embeds the core pipeline of
`src/openAPI_IDC/services/email_sender.py` together with the request
model of `src/openAPI_IDC/models/email_sender_model.py`:

* `template_mapping`        — the fixed EmailType → template-id registry;
* `build_html_table`        — the HTML table renderer with its per-cell
                              formatting rules (numbers, numeric strings,
                              two-element lists, default `str`);
* `send_email_function`     — template resolution, render-context
                              construction, attachment processing and
                              SMTP delivery, with Python exceptions
                              embedded as `Except` errors;
* `send_emails_process`     — the dispatch orchestrator choosing between
                              the deferred (background-task) and the
                              synchronous path.

Python values flowing through table cells are embedded as `PyValue`;
floating-point numbers are represented by their decimal rendering
(sign, integer part, fractional digits), which is exactly the data the
`f"{value:,}"` formatting consumes.  Machine-level details (real SMTP
sockets, the Jinja2 engine, the filesystem) are parameters of the
embedding: an abstract template environment, an abstract file store and
a failure oracle for the SMTP steps.
-/

/-- Python truthiness-relevant values that appear in table cells:
booleans, integers, floats (by their decimal rendering: sign, integer
part, fractional digit string), strings and lists. -/
inductive PyValue where
  | pyBool : Bool → PyValue
  | pyInt : Int → PyValue
  | pyFloat : Bool → Nat → String → PyValue
  | pyStr : String → PyValue
  | pyList : List PyValue → PyValue

mutual

/-- Python `repr()` of a value, restricted to the shapes the renderer
meets.  Lists render via Python `repr` of the elements; for the claims
at hand only the top-level `str` of scalars matters, so element `repr`
of strings adds the quotes Python would print. -/
def pyReprOf : PyValue → String
  | .pyBool b => if b then "True" else "False"
  | .pyInt n => toString n
  | .pyFloat sg i f => (if sg then "-" else "") ++ toString i ++ "." ++ f
  | .pyStr s => "\x27" ++ s ++ "\x27"
  | .pyList xs => "[" ++ String.intercalate ", " (pyReprList xs) ++ "]"

/-- `repr` of each element of a list. -/
def pyReprList : List PyValue → List String
  | [] => []
  | v :: vs => pyReprOf v :: pyReprList vs

end

/-- Python `str()` (top level): identical to `repr` except on strings. -/
def pyStrOf : PyValue → String
  | .pyStr s => s
  | v => pyReprOf v

/-- Insert `,` before a digit (working over the reversed digit list)
whenever three digits of the current group have been emitted; this is
the grouping performed by Python `format(n, ",")`. -/
def commaRevAux : Nat → List Char → List Char
  | _, [] => []
  | k, c :: cs =>
    if k == 3 then ',' :: c :: commaRevAux 1 cs
    else c :: commaRevAux (k + 1) cs

/-- Thousands-grouping of a digit string, counting groups from the
right, as in Python `f"{n:,}"`. -/
def groupThousands (digits : String) : String :=
  ⟨(commaRevAux 0 digits.data.reverse).reverse⟩

/-- `f"{n:,}"` for a Python `int`. -/
def intComma (n : Int) : String :=
  if n < 0 then "-" ++ groupThousands (toString n.natAbs)
  else groupThousands (toString n.toNat)

/-- `f"{n:,}"` for a natural number. -/
def natComma (n : Nat) : String := groupThousands (toString n)

/-- `f"{x:,}"` for a float given by its decimal rendering: grouping is
applied to the integer part only, the fractional digits are kept. -/
def floatComma (sg : Bool) (i : Nat) (f : String) : String :=
  (if sg then "-" else "") ++ groupThousands (toString i) ++ "." ++ f

/-- Remove the first occurrence of `'.'`: Python `s.replace('.', '', 1)`. -/
def removeFirstDot : List Char → List Char
  | [] => []
  | c :: cs => if c = '.' then cs else c :: removeFirstDot cs

/-- Python `s.count('.')`. -/
def countDot (cs : List Char) : Nat :=
  cs.countP (fun c => c = '.')

/-- Python `s.isdigit()` (ASCII fragment): non-empty and all digits. -/
def isdigitL (cs : List Char) : Bool :=
  !cs.isEmpty && cs.all Char.isDigit

/-- Split at the first `'.'`; in the renderer this is only invoked when
the string contains exactly one dot, where it coincides with
`value.split('.')` unpacked into the two parts. -/
def splitFirstDot : List Char → List Char × List Char
  | [] => ([], [])
  | c :: cs =>
    if c = '.' then ([], cs)
    else
      let p := splitFirstDot cs
      (c :: p.1, p.2)

/-- Accumulating decimal reading of a digit list; fails on a non-digit. -/
def parseNatAux : Nat → List Char → Option Nat
  | n, [] => some n
  | n, c :: cs =>
    if c.isDigit then parseNatAux (n * 10 + (c.toNat - '0'.toNat)) cs else none

/-- Numeric value of a digit string; `none` on the empty string or a
non-digit, mirroring the `ValueError` of Python `int("")`. -/
def parseNatStrict (cs : List Char) : Option Nat :=
  if cs.isEmpty then none else parseNatAux 0 cs

/-- Accumulating decimal value of a digit list. -/
def digitsValAux : Nat → List Char → Nat
  | n, [] => n
  | n, c :: cs => digitsValAux (n * 10 + (c.toNat - '0'.toNat)) cs

/-- The numeric value `int` computes on an all-digit string. -/
def digitsVal (cs : List Char) : Nat := digitsValAux 0 cs

/-- Python exceptions that the embedded pipeline can raise. -/
inductive PyError where
  | valueError : String → PyError
  | attributeError : String → PyError
  | keyError : String → PyError
  | templateNotFound : String → PyError
  | smtpError : String → PyError
deriving Repr, DecidableEq

/-- Per-cell formatting of `build_html_table` (email_sender.py,
lines 281–295): numbers that are not booleans are grouped with
thousands separators; strings passing the
`value.replace('.', '', 1).isdigit() and value.count('.') <= 1` guard
are parsed and grouped (`int("")` raising `ValueError` when the part
before the dot is empty); two-element lists become `"a - b"`; anything
else is rendered by `str`. -/
def formatCell : PyValue → Except PyError String
  | .pyInt n => .ok (intComma n)
  | .pyFloat sg i f => .ok (floatComma sg i f)
  | .pyStr s =>
    if isdigitL (removeFirstDot s.data) && decide (countDot s.data ≤ 1) then
      if s.data.contains '.' then
        let p := splitFirstDot s.data
        match parseNatStrict p.1 with
        | some n => .ok (natComma n ++ "." ++ String.mk p.2)
        | none => .error (.valueError ("invalid literal for int() with base 10: " ++ String.mk p.1))
      else
        match parseNatStrict s.data with
        | some n => .ok (natComma n)
        | none => .error (.valueError ("invalid literal for int() with base 10: " ++ s))
    else .ok s
  | .pyList xs =>
    if h : xs.length = 2 then
      .ok (pyStrOf (xs.get ⟨0, by omega⟩) ++ " - " ++ pyStrOf (xs.get ⟨1, by omega⟩))
    else .ok (pyStrOf (.pyList xs))
  | v => .ok (pyStrOf v)

/-- A table row: the ordered `dict` of one row, column name → value. -/
abbrev PyRow := List (String × PyValue)

/-- Python `row[h]`: lookup raising `KeyError` when absent. -/
def rowGet (row : PyRow) (h : String) : Except PyError PyValue :=
  match row.lookup h with
  | some v => .ok v
  | none => .error (.keyError h)

/-- Render the cells of one data row in header order. -/
def renderRow (headers : List String) (row : PyRow) : Except PyError String :=
  match headers with
  | [] => .ok ""
  | h :: hs => do
    let v ← rowGet row h
    let cell ← formatCell v
    let rest ← renderRow hs row
    .ok ("<td>" ++ cell ++ "</td>" ++ rest)

/-- Render all data rows. -/
def renderRows (headers : List String) : List PyRow → Except PyError String
  | [] => .ok ""
  | row :: rest => do
    let r ← renderRow headers row
    let rs ← renderRows headers rest
    .ok ("<tr>" ++ r ++ "</tr>" ++ rs)

/-- `build_html_table` (email_sender.py, lines 251–299): empty input
yields the fixed no-data fragment; otherwise headers come from the
first row's keys, followed by one `<tr>` per data row with the
per-cell formatting of `formatCell`. -/
def build_html_table (data : List PyRow) : Except PyError String :=
  match data with
  | [] => .ok "<p>No data available.</p>"
  | first :: _ =>
    let headers := first.map Prod.fst
    let headerHtml :=
      "<tr style=\x22background-color: #f2f2f2;\x22>" ++
        String.join (headers.map (fun h => "<th style=\x27text-align:left\x27>" ++ h ++ "</th>")) ++
      "</tr>"
    (renderRows headers data).map (fun rowsHtml =>
      "<table style=\x22width:100%; border-collapse: collapse;\x22 border=\x221\x22 cellpadding=\x228\x22 cellspacing=\x220\x22>" ++
      headerHtml ++ rowsHtml ++ "</table>")

/-- Substring test used to state the spec's "produces a cell containing". -/
def hasPrefixL : List Char → List Char → Bool
  | _, [] => true
  | [], _ :: _ => false
  | a :: as, b :: bs => a == b && hasPrefixL as bs

/-- `pat` occurs somewhere in `hay`. -/
def hasSubL : List Char → List Char → Bool
  | [], pat => pat.isEmpty
  | hay@(_ :: t), pat => hasPrefixL hay pat || hasSubL t pat

/-- `containsStr hay pat`: `pat` is a substring of `hay`. -/
def containsStr (hay pat : String) : Bool := hasSubL hay.data pat.data

/-- `TableFilterInfo` (email_sender_model.py): all dynamic fields are
collected into the ordered mapping `data`. -/
structure TableFilterInfo where
  data : PyRow

/-- `EmailBodyModel` (email_sender_model.py, lines 17–19). -/
structure EmailBodyModel where
  Reciever_Name : String
  Table_Filter_infor : Option TableFilterInfo

/-- `EmailSenderRequest` (email_sender_model.py, lines 21–27). -/
structure EmailSenderRequest where
  EmailType : String
  RecieverMail : String
  CarbonCopyTo : List String
  Subject : String
  EmailBody : EmailBodyModel
  Attachments : List String

/-- `template_mapping` (email_sender.py, lines 119–126): the fixed
EmailType → template-file registry, queried with `.get` (so unknown
tags yield `None`). -/
def template_mapping (emailType : String) : Option String :=
  if emailType = "Mediation" then some "mediation_board_template"
  else if emailType = "Defaulted-Cases" then some "defaulted_cases_template"
  else if emailType = "Defaulted-Customers" then some "defaulted_customers_template"
  else if emailType = "Normal-Information" then some "plain_template"
  else if emailType = "Table-Information" then some "table_template"
  else if emailType = "Action-Required" then some "action_required_template"
  else none

/-- The six registered tags, in registry order. -/
def knownEmailTypes : List String :=
  ["Mediation", "Defaulted-Cases", "Defaulted-Customers",
   "Normal-Information", "Table-Information", "Action-Required"]

/-- A wall-clock instant as `datetime.now()` exposes it to
`strftime("%B %d, %Y %I:%M %p")`. -/
structure LocalTime where
  month : Nat
  day : Nat
  year : Nat
  hour : Nat
  minute : Nat

/-- `%B`: full month name. -/
def monthName : Nat → String
  | 1 => "January" | 2 => "February" | 3 => "March" | 4 => "April"
  | 5 => "May" | 6 => "June" | 7 => "July" | 8 => "August"
  | 9 => "September" | 10 => "October" | 11 => "November" | 12 => "December"
  | _ => ""

/-- Zero-padding to two digits, as in `%d`, `%I` and `%M`. -/
def pad2 (n : Nat) : String :=
  if n < 10 then "0" ++ toString n else toString n

/-- `datetime.now().strftime("%B %d, %Y %I:%M %p")` (email_sender.py,
line 185): "Month DD, YYYY HH:MM AM/PM". -/
def strftimeEmail (t : LocalTime) : String :=
  monthName t.month ++ " " ++ pad2 t.day ++ ", " ++ toString t.year ++ " " ++
  pad2 (if t.hour % 12 = 0 then 12 else t.hour % 12) ++ ":" ++ pad2 t.minute ++ " " ++
  (if t.hour < 12 then "AM" else "PM")

/-- Values stored in the render context: strings (timestamp, subject,
recipient name, table HTML) and the dumped optional table-filter
field. -/
inductive CtxValue where
  | str : String → CtxValue
  | filt : Option TableFilterInfo → CtxValue

/-- The render context: template variable name → value. -/
abbrev RenderContext := List (String × CtxValue)

/-- `request.EmailBody.model_dump()`: the pydantic dump of the body's
two declared fields, in declaration order. -/
def model_dump (body : EmailBodyModel) : RenderContext :=
  [("Reciever_Name", .str body.Reciever_Name),
   ("Table_Filter_infor", .filt body.Table_Filter_infor)]

/-- `hasattr(request.EmailBody, 'Table_Filter_infor')`: the attribute
is a declared pydantic field, so it exists on every model instance
(its value is `None` when the payload omitted it) and the check is
always true. -/
def hasattrTableFilter (_ : EmailBodyModel) : Bool := true

/-- `request.EmailBody.Table_Filter_infor.data`: attribute access on
the optional field; on `None` Python raises
`AttributeError: 'NoneType' object has no attribute 'data'`. -/
def tableFilterData : Option TableFilterInfo → Except PyError PyRow
  | none => .error (.attributeError "\x27NoneType\x27 object has no attribute \x27data\x27")
  | some t => .ok t.data

/-- Render-context construction (email_sender.py, lines 184–200): dump
the body, inject `Date_3545`, `Subject_3545` and `Reciever_Name_3545`,
then, for the two table email types, dereference the table filter and
append the generated `DYNAMIC_TABLE` fragment. -/
def buildRenderContext (now : LocalTime) (request : EmailSenderRequest) :
    Except PyError RenderContext :=
  let ctx := model_dump request.EmailBody ++
    [("Date_3545", .str (strftimeEmail now)),
     ("Subject_3545", .str request.Subject),
     ("Reciever_Name_3545", .str request.EmailBody.Reciever_Name)]
  if (request.EmailType == "Table-Information" || request.EmailType == "Action-Required")
      && hasattrTableFilter request.EmailBody then
    match tableFilterData request.EmailBody.Table_Filter_infor with
    | .error e => .error e
    | .ok tdata =>
      match build_html_table [tdata] with
      | .error e => .error e
      | .ok tableHtml => .ok (ctx ++ [("DYNAMIC_TABLE", .str tableHtml)])
  else
    .ok ctx

/-- The Jinja2 side of the pipeline, abstracted: which template files
exist on disk (`get_template` raises `TemplateNotFound` otherwise) and
how a template renders against a context. -/
structure TemplateEnv where
  hasTemplate : String → Bool
  render : String → RenderContext → String

/-- State of one attachment file in the attachments directory:
absent, present but failing to open/read, or present with content. -/
inductive FileStatus where
  | missing : FileStatus
  | readFault : FileStatus
  | content : String → FileStatus

/-- Parts of the outgoing MIME message: the HTML body and attachment
parts carrying a base filename and bytes. -/
inductive MimePart where
  | htmlBody : String → MimePart
  | attachmentPart : String → String → MimePart
deriving DecidableEq

/-- `os.path.basename`: the final path component (after the last `/`). -/
def basenameAux : List Char → List Char
  | [] => []
  | c :: cs => if c = '/' then [] else c :: basenameAux cs

/-- `os.path.basename` on strings. -/
def basename (s : String) : String :=
  ⟨(basenameAux s.data.reverse).reverse⟩

/-- The attachment loop (email_sender.py, lines 221–235): existing
readable files are attached under their base name; a missing file is
skipped with a logged warning; a read fault is caught by the
`except ... continue` and skipped. The loop itself never raises. -/
def processAttachments (fs : String → FileStatus) : List String → List MimePart
  | [] => []
  | name :: rest =>
    match fs name with
    | .content bytes => .attachmentPart (basename name) bytes :: processAttachments fs rest
    | .missing => processAttachments fs rest
    | .readFault => processAttachments fs rest

/-- The assembled outgoing message (`MIMEMultipart` with its headers
and ordered parts). -/
structure Message where
  fromAddr : String
  toAddr : String
  cc : String
  subject : String
  parts : List MimePart

/-- SMTP configuration from the environment (email_sender.py,
lines 97–100). -/
structure SmtpConfig where
  host : String
  port : Nat
  user : String
  password : String

/-- Failure oracle for the SMTP transport: whether each step of the
delivery succeeds or raises. -/
structure SmtpOracle where
  connectOk : Bool
  starttlsOk : Bool
  loginOk : Bool
  sendOk : Bool

/-- Observable SMTP actions, in the order the client performs them. -/
inductive SmtpStep where
  | connect : String → Nat → SmtpStep
  | starttls : SmtpStep
  | login : String → String → SmtpStep
  | sendMessage : SmtpStep
  | close : SmtpStep
deriving DecidableEq

/-- The delivery block (email_sender.py, lines 240–249):
`with smtplib.SMTP(host, port)` connects (raising on failure before a
connection exists), then STARTTLS, then `login` only when both
credentials are non-empty (Python truthiness of the two strings), then
`send_message`; the `with` statement closes the connection on every
exit path once it was opened. Returns the outcome and the step trace. -/
def smtpDeliver (cfg : SmtpConfig) (o : SmtpOracle) :
    Except PyError Unit × List SmtpStep :=
  if !o.connectOk then
    (.error (.smtpError "connect"), [.connect cfg.host cfg.port])
  else if !o.starttlsOk then
    (.error (.smtpError "starttls"), [.connect cfg.host cfg.port, .starttls, .close])
  else if cfg.user ≠ "" ∧ cfg.password ≠ "" then
    if !o.loginOk then
      (.error (.smtpError "login"),
       [.connect cfg.host cfg.port, .starttls, .login cfg.user cfg.password, .close])
    else if !o.sendOk then
      (.error (.smtpError "send"),
       [.connect cfg.host cfg.port, .starttls, .login cfg.user cfg.password,
        .sendMessage, .close])
    else
      (.ok (),
       [.connect cfg.host cfg.port, .starttls, .login cfg.user cfg.password,
        .sendMessage, .close])
  else if !o.sendOk then
    (.error (.smtpError "send"),
     [.connect cfg.host cfg.port, .starttls, .sendMessage, .close])
  else
    (.ok (), [.connect cfg.host cfg.port, .starttls, .sendMessage, .close])

/-- Everything observable from one `send_email_function` run: the
Python result (normal return or raised exception), the assembled
message when assembly was reached, and the SMTP step trace. -/
structure SendOutcome where
  result : Except PyError Unit
  message : Option Message
  smtpTrace : List SmtpStep

/-- `send_email_function` (email_sender.py, lines 158–249): resolve
the template tag (raising `ValueError` on unknown tags before any
other work), load the template (`TemplateNotFound` when the file is
absent), build the render context, render, assemble the message with
the attachment loop, and deliver over SMTP, re-raising any delivery
fault. -/
def send_email_function (tmpl : TemplateEnv) (fs : String → FileStatus)
    (cfg : SmtpConfig) (oracle : SmtpOracle) (now : LocalTime)
    (fromEmail : String) (request : EmailSenderRequest) : SendOutcome :=
  match template_mapping request.EmailType with
  | none =>
    ⟨.error (.valueError ("Invalid EmailType or no template file defined: " ++ request.EmailType)),
     none, []⟩
  | some templateFile =>
    if !tmpl.hasTemplate (templateFile ++ ".html") then
      ⟨.error (.templateNotFound (templateFile ++ ".html")), none, []⟩
    else
      match buildRenderContext now request with
      | .error e => ⟨.error e, none, []⟩
      | .ok ctx =>
        let htmlBody := tmpl.render templateFile ctx
        let msg : Message :=
          { fromAddr := fromEmail
            toAddr := request.RecieverMail
            cc := String.intercalate ", " request.CarbonCopyTo
            subject := request.Subject
            parts := .htmlBody htmlBody :: processAttachments fs request.Attachments }
        let d := smtpDeliver cfg oracle
        ⟨d.1, some msg, d.2⟩

/-- `send_emails_process` (email_sender.py, lines 128–156): with a
background-tasks handle the request is enqueued and the queued
acknowledgement dictionary is returned at once; otherwise the pipeline
runs synchronously, returning the success dictionary or re-raising the
first failure. -/
def send_emails_process (tmpl : TemplateEnv) (fs : String → FileStatus)
    (cfg : SmtpConfig) (oracle : SmtpOracle) (now : LocalTime)
    (fromEmail : String) (request : EmailSenderRequest)
    (backgroundTasks : Bool) : Except PyError (String × String) :=
  if backgroundTasks then
    .ok ("processing", "Email queued for sending")
  else
    match (send_email_function tmpl fs cfg oracle now fromEmail request).result with
    | .ok _ => .ok ("success", "Email sent successfully")
    | .error e => .error e

/-- The spec-side status vocabulary of `DispatchResult`. -/
inductive DispatchStatus where
  | queued : DispatchStatus
  | sent : DispatchStatus
  | failed : DispatchStatus
deriving DecidableEq

/-- Correspondence between the code-level status strings and the
spec-side vocabulary: "processing"/"Email queued for sending" is the
queued acknowledgement, "success" is sent, "failed" is failed. -/
def dispatchStatusOfString (s : String) : Option DispatchStatus :=
  if s = "processing" then some .queued
  else if s = "success" then some .sent
  else if s = "failed" then some .failed
  else none

/-- The render context `send_email_function` builds for a request, or
`[]` when context construction raised. -/
def ctxOf (now : LocalTime) (request : EmailSenderRequest) : RenderContext :=
  match buildRenderContext now request with
  | .ok c => c
  | .error _ => []

/-- Parts of the assembled message of an outcome (`[]` before assembly). -/
def messageParts (o : SendOutcome) : List MimePart :=
  match o.message with
  | some m => m.parts
  | none => []

/-- A template environment in which every template file exists. -/
def sampleTmplEnv : TemplateEnv :=
  ⟨fun _ => true, fun tid ctx => "<html>" ++ tid ++ toString ctx.length ++ "</html>"⟩

/-- A file store with one readable file, one unreadable file, and
everything else absent. -/
def sampleFs : String → FileStatus := fun name =>
  if name = "report.pdf" then .content "PDFBYTES"
  else if name = "broken.bin" then .readFault
  else .missing

/-- SMTP settings with both credentials configured. -/
def sampleCfg : SmtpConfig := ⟨"smtp.example.com", 587, "sender@example.com", "secret"⟩

/-- An SMTP transport on which every step succeeds. -/
def sampleOracle : SmtpOracle := ⟨true, true, true, true⟩

/-- A concrete wall-clock instant: August 13, 2024, 14:05. -/
def sampleTime : LocalTime := ⟨8, 13, 2024, 14, 5⟩

/-- A request body with no table filter. -/
def sampleBody : EmailBodyModel := ⟨"Ada", none⟩

/-- A plain-template request with three attachments: one readable, one
absent, one unreadable. -/
def sampleRequest : EmailSenderRequest :=
  ⟨"Normal-Information", "to@example.com", ["cc@example.com"], "Hi", sampleBody,
   ["report.pdf", "missing.txt", "broken.bin"]⟩

/-- A table-type request whose body has no table filter. -/
def sampleTableRequest : EmailSenderRequest :=
  ⟨"Table-Information", "to@example.com", [], "Tbl", sampleBody, []⟩

/-- A request with an unregistered EmailType. -/
def sampleBogusRequest : EmailSenderRequest :=
  ⟨"Bogus-Type", "to@example.com", [], "Hi", sampleBody, []⟩

/-- C3: for the empty row sequence, the table renderer returns exactly
the fixed "no data available" HTML fragment and never fails, whatever
other state exists (the renderer depends on nothing but its input). -/
theorem build_html_table_empty_returns_no_data_fragment :
    build_html_table [] = .ok "<p>No data available.</p>" := rfl

/-- C1: with deferral enabled, `send_emails_process` returns the
queued acknowledgement immediately and unconditionally: the value is
the same for every request (in particular for requests whose EmailType
is not in the registry, where no lookup is performed) and for every
template environment, file store, SMTP configuration and transport
outcome, so no failure of the deferred work can change it. -/
theorem send_emails_process_deferred_returns_queued :
    ∀ tmpl fs cfg oracle now fromEmail request,
      send_emails_process tmpl fs cfg oracle now fromEmail request true =
        .ok ("processing", "Email queued for sending") ∧
      (∀ tmpl2 fs2 cfg2 oracle2 now2 fromEmail2 request2,
        send_emails_process tmpl fs cfg oracle now fromEmail request true =
          send_emails_process tmpl2 fs2 cfg2 oracle2 now2 fromEmail2 request2 true) :=
  fun _ _ _ _ _ _ _ => ⟨rfl, fun _ _ _ _ _ _ _ => rfl⟩

/-- C2: each of the six registered tags resolves to a non-empty
template identifier; every other EmailType string resolves to `None`,
and on such a request the synchronous send raises the invalid-EmailType
`ValueError` with no message assembled and no SMTP step performed. -/
theorem template_mapping_resolution_spec :
    (∀ t ∈ knownEmailTypes, (template_mapping t).getD "" ≠ "") ∧
    (∀ t, t ∉ knownEmailTypes → template_mapping t = none) ∧
    (∀ tmpl fs cfg oracle now fromEmail (request : EmailSenderRequest),
      template_mapping request.EmailType = none →
      (send_email_function tmpl fs cfg oracle now fromEmail request).result =
        .error (.valueError
          ("Invalid EmailType or no template file defined: " ++ request.EmailType)) ∧
      (send_email_function tmpl fs cfg oracle now fromEmail request).message = none ∧
      (send_email_function tmpl fs cfg oracle now fromEmail request).smtpTrace = []) := by
  refine ⟨?_, ?_, ?_⟩
  · intro t ht
    fin_cases ht <;> decide
  · intro t ht
    simp only [knownEmailTypes, List.mem_cons, List.not_mem_nil, or_false, not_or] at ht
    obtain ⟨h1, h2, h3, h4, h5, h6⟩ := ht
    simp [template_mapping, h1, h2, h3, h4, h5, h6]
  · intro tmpl fs cfg oracle now fromEmail request h
    simp [send_email_function, h]

/-- C2 witness: "Mediation" resolves to a non-empty identifier, and a
request with the unregistered tag "Bogus-Type" fails synchronously with
the `ValueError`, assembling no message and performing no SMTP step. -/
theorem template_mapping_resolution_spec_witness :
    (template_mapping "Mediation").getD "" ≠ "" ∧
    ((send_email_function sampleTmplEnv sampleFs sampleCfg sampleOracle sampleTime
        "from@example.com" sampleBogusRequest).result =
      .error (.valueError "Invalid EmailType or no template file defined: Bogus-Type") ∧
     (send_email_function sampleTmplEnv sampleFs sampleCfg sampleOracle sampleTime
        "from@example.com" sampleBogusRequest).message = none ∧
     (send_email_function sampleTmplEnv sampleFs sampleCfg sampleOracle sampleTime
        "from@example.com" sampleBogusRequest).smtpTrace = []) :=
  ⟨template_mapping_resolution_spec.1 "Mediation" (by decide),
   template_mapping_resolution_spec.2.2 sampleTmplEnv sampleFs sampleCfg sampleOracle
     sampleTime "from@example.com" sampleBogusRequest rfl⟩

/-- C9: every dictionary `send_emails_process` returns to the caller
carries the status string "processing" (the queued acknowledgement) or
"success" (sent); under the spec's status vocabulary every returned
status is therefore one of queued, sent, failed (failures of the
synchronous path are raised, not returned). -/
theorem dispatch_status_within_spec_vocabulary :
    ∀ tmpl fs cfg oracle now fromEmail request deferred res,
      send_emails_process tmpl fs cfg oracle now fromEmail request deferred = .ok res →
      (res.1 = "processing" ∧ dispatchStatusOfString res.1 = some .queued) ∨
      (res.1 = "success" ∧ dispatchStatusOfString res.1 = some .sent) := by
  intro tmpl fs cfg oracle now fromEmail request deferred res h
  cases deferred with
  | true =>
    simp only [send_emails_process, if_pos] at h
    cases h
    left
    exact ⟨rfl, rfl⟩
  | false =>
    simp only [send_emails_process, Bool.false_eq_true, if_false] at h
    cases hr : (send_email_function tmpl fs cfg oracle now fromEmail request).result with
    | ok u => rw [hr] at h; cases h; right; exact ⟨rfl, rfl⟩
    | error e => rw [hr] at h; cases h

/-- C9 witness: the deferred acknowledgement for a concrete request
carries status "processing", which the spec vocabulary reads as
queued. -/
theorem dispatch_status_within_spec_vocabulary_witness :
    (("processing", "Email queued for sending").1 = "processing" ∧
      dispatchStatusOfString ("processing", "Email queued for sending").1 =
        some DispatchStatus.queued) ∨
    (("processing", "Email queued for sending").1 = "success" ∧
      dispatchStatusOfString ("processing", "Email queued for sending").1 =
        some DispatchStatus.sent) :=
  dispatch_status_within_spec_vocabulary sampleTmplEnv sampleFs sampleCfg sampleOracle
    sampleTime "from@example.com" sampleRequest true
    ("processing", "Email queued for sending") rfl

/-- The attachment loop produces exactly the parts of the readable
files, in order, skipping missing files and read faults. -/
theorem processAttachments_eq_filterMap (fs : String → FileStatus) :
    ∀ names : List String,
      processAttachments fs names = names.filterMap (fun name =>
        match fs name with
        | .content bytes => some (.attachmentPart (basename name) bytes)
        | .missing => none
        | .readFault => none) := by
  intro names
  induction names with
  | nil => rfl
  | cons name rest ih =>
    cases hf : fs name <;>
      simp [processAttachments, List.filterMap_cons, hf, ih]

/-- C10: a request whose EmailType is "Table-Information" or
"Action-Required" but whose body carries no TableFilterInfo raises the
NoneType AttributeError during context building when the template file
itself exists (the `hasattr` guard is always true on the model, so the
`None` value is dereferenced for `.data`): no message is assembled and
nothing is rendered or delivered. -/
theorem table_type_missing_filter_raises :
    ∀ tmpl fs cfg oracle now fromEmail (request : EmailSenderRequest),
      (request.EmailType = "Table-Information" ∨ request.EmailType = "Action-Required") →
      request.EmailBody.Table_Filter_infor = none →
      tmpl.hasTemplate (((template_mapping request.EmailType).getD "") ++ ".html") = true →
      (send_email_function tmpl fs cfg oracle now fromEmail request).result =
        .error (.attributeError "\x27NoneType\x27 object has no attribute \x27data\x27") ∧
      (send_email_function tmpl fs cfg oracle now fromEmail request).message = none ∧
      (send_email_function tmpl fs cfg oracle now fromEmail request).smtpTrace = [] := by
  intro tmpl fs cfg oracle now fromEmail request htype hnone htmpl
  rcases htype with h | h <;>
    rw [h] at htmpl <;>
    simp only [template_mapping] at htmpl <;>
    simp at htmpl <;>
    simp [send_email_function, template_mapping, h, htmpl, buildRenderContext,
      hasattrTableFilter, hnone, tableFilterData]

/-- C10 witness: the concrete table-type request with a `None` table
filter raises the AttributeError with no message and no SMTP step. -/
theorem table_type_missing_filter_raises_witness :
    (send_email_function sampleTmplEnv sampleFs sampleCfg sampleOracle sampleTime
        "from@example.com" sampleTableRequest).result =
      .error (.attributeError "\x27NoneType\x27 object has no attribute \x27data\x27") ∧
    (send_email_function sampleTmplEnv sampleFs sampleCfg sampleOracle sampleTime
        "from@example.com" sampleTableRequest).message = none ∧
    (send_email_function sampleTmplEnv sampleFs sampleCfg sampleOracle sampleTime
        "from@example.com" sampleTableRequest).smtpTrace = [] :=
  table_type_missing_filter_raises sampleTmplEnv sampleFs sampleCfg sampleOracle
    sampleTime "from@example.com" sampleTableRequest (Or.inl rfl) rfl rfl

/-- C6: whenever render-context construction succeeds, the context
contains the three injected keys — the formatted current timestamp
under `Date_3545`, the request subject under `Subject_3545`, and the
body's recipient name under `Reciever_Name_3545` — in addition to the
dumped fields of the email body. -/
theorem render_context_injected_keys :
    ∀ now request ctx,
      buildRenderContext now request = .ok ctx →
      ("Date_3545", CtxValue.str (strftimeEmail now)) ∈ ctx ∧
      ("Subject_3545", CtxValue.str request.Subject) ∈ ctx ∧
      ("Reciever_Name_3545", CtxValue.str request.EmailBody.Reciever_Name) ∈ ctx ∧
      ("Reciever_Name", CtxValue.str request.EmailBody.Reciever_Name) ∈ ctx ∧
      ("Table_Filter_infor", CtxValue.filt request.EmailBody.Table_Filter_infor) ∈ ctx := by
  intro now request ctx h
  unfold buildRenderContext at h
  split at h
  · cases hf : tableFilterData request.EmailBody.Table_Filter_infor with
    | error e => rw [hf] at h; simp at h
    | ok tdata =>
      rw [hf] at h
      dsimp only at h
      cases ht : build_html_table [tdata] with
      | error e => rw [ht] at h; simp at h
      | ok tableHtml =>
        rw [ht] at h
        simp only [Except.ok.injEq] at h
        subst h
        simp [model_dump]
  · simp only [Except.ok.injEq] at h
    subst h
    simp [model_dump]

/-- C6 witness: for the concrete time and request the built context
contains all three injected keys and the dumped body fields. -/
theorem render_context_injected_keys_witness :
    ("Date_3545", CtxValue.str (strftimeEmail sampleTime)) ∈ ctxOf sampleTime sampleRequest ∧
    ("Subject_3545", CtxValue.str sampleRequest.Subject) ∈ ctxOf sampleTime sampleRequest ∧
    ("Reciever_Name_3545", CtxValue.str sampleRequest.EmailBody.Reciever_Name) ∈
      ctxOf sampleTime sampleRequest ∧
    ("Reciever_Name", CtxValue.str sampleRequest.EmailBody.Reciever_Name) ∈
      ctxOf sampleTime sampleRequest ∧
    ("Table_Filter_infor", CtxValue.filt sampleRequest.EmailBody.Table_Filter_infor) ∈
      ctxOf sampleTime sampleRequest :=
  render_context_injected_keys sampleTime sampleRequest (ctxOf sampleTime sampleRequest) rfl

/-- C7: whenever the pipeline reaches message assembly (template
resolved and present, context built), assembly never fails: the
outgoing message exists, its first part is the rendered HTML body, and
its attachment parts are exactly those of the readable files — every
attachment whose file is missing or whose read raises is skipped and
the loop continues with the rest. -/
theorem message_assembly_skips_bad_attachments :
    ∀ tmpl fs cfg oracle now fromEmail (request : EmailSenderRequest) tid ctx,
      template_mapping request.EmailType = some tid →
      tmpl.hasTemplate (tid ++ ".html") = true →
      buildRenderContext now request = .ok ctx →
      (send_email_function tmpl fs cfg oracle now fromEmail request).message =
        some { fromAddr := fromEmail
               toAddr := request.RecieverMail
               cc := String.intercalate ", " request.CarbonCopyTo
               subject := request.Subject
               parts := .htmlBody (tmpl.render tid ctx) ::
                 request.Attachments.filterMap (fun name =>
                   match fs name with
                   | .content bytes => some (.attachmentPart (basename name) bytes)
                   | .missing => none
                   | .readFault => none) } ∧
      MimePart.htmlBody (tmpl.render tid ctx) ∈
        messageParts (send_email_function tmpl fs cfg oracle now fromEmail request) := by
  intro tmpl fs cfg oracle now fromEmail request tid ctx hmap htmpl hctx
  have houtcome : send_email_function tmpl fs cfg oracle now fromEmail request =
      { result := (smtpDeliver cfg oracle).1
        message := some { fromAddr := fromEmail
                          toAddr := request.RecieverMail
                          cc := String.intercalate ", " request.CarbonCopyTo
                          subject := request.Subject
                          parts := .htmlBody (tmpl.render tid ctx) ::
                            processAttachments fs request.Attachments }
        smtpTrace := (smtpDeliver cfg oracle).2 } := by
    simp [send_email_function, hmap, htmpl, hctx]
  rw [houtcome]
  refine ⟨?_, ?_⟩
  · rw [processAttachments_eq_filterMap]
  · simp [messageParts]

/-- C7 witness: for the concrete request with one readable, one
missing and one unreadable attachment, the message exists, keeps the
HTML body first, and carries exactly the readable attachment. -/
theorem message_assembly_skips_bad_attachments_witness :
    (send_email_function sampleTmplEnv sampleFs sampleCfg sampleOracle sampleTime
        "from@example.com" sampleRequest).message =
      some { fromAddr := "from@example.com"
             toAddr := sampleRequest.RecieverMail
             cc := String.intercalate ", " sampleRequest.CarbonCopyTo
             subject := sampleRequest.Subject
             parts := .htmlBody (sampleTmplEnv.render "plain_template"
                 (ctxOf sampleTime sampleRequest)) ::
               sampleRequest.Attachments.filterMap (fun name =>
                 match sampleFs name with
                 | .content bytes => some (.attachmentPart (basename name) bytes)
                 | .missing => none
                 | .readFault => none) } ∧
    MimePart.htmlBody (sampleTmplEnv.render "plain_template" (ctxOf sampleTime sampleRequest)) ∈
      messageParts (send_email_function sampleTmplEnv sampleFs sampleCfg sampleOracle
        sampleTime "from@example.com" sampleRequest) :=
  message_assembly_skips_bad_attachments sampleTmplEnv sampleFs sampleCfg sampleOracle
    sampleTime "from@example.com" sampleRequest "plain_template"
    (ctxOf sampleTime sampleRequest) rfl rfl rfl

/-- C8: every delivery begins by connecting to the configured host and
port; once a connection exists it is closed on every exit path
(the trace ends with the close step whether the result is success or
an error); after a successful encrypted upgrade, authentication is
attempted exactly when both configured credentials are non-empty; and
on a fault-free transport the full step sequence is
connect, starttls, (login), send, close. -/
theorem smtp_delivery_lifecycle :
    ∀ (cfg : SmtpConfig) (o : SmtpOracle),
      (smtpDeliver cfg o).2.head? = some (.connect cfg.host cfg.port) ∧
      (o.connectOk = true → (smtpDeliver cfg o).2.getLast? = some .close) ∧
      (o.connectOk = true → SmtpStep.starttls ∈ (smtpDeliver cfg o).2) ∧
      (o.connectOk = true → o.starttlsOk = true →
        (SmtpStep.login cfg.user cfg.password ∈ (smtpDeliver cfg o).2 ↔
          (cfg.user ≠ "" ∧ cfg.password ≠ ""))) ∧
      (o = ⟨true, true, true, true⟩ → cfg.user ≠ "" → cfg.password ≠ "" →
        (smtpDeliver cfg o).1 = .ok () ∧
        (smtpDeliver cfg o).2 =
          [.connect cfg.host cfg.port, .starttls, .login cfg.user cfg.password,
           .sendMessage, .close]) ∧
      (o = ⟨true, true, true, true⟩ → (cfg.user = "" ∨ cfg.password = "") →
        (smtpDeliver cfg o).1 = .ok () ∧
        (smtpDeliver cfg o).2 = [.connect cfg.host cfg.port, .starttls, .sendMessage, .close]) := by
  intro cfg o
  obtain ⟨c, st, lo, se⟩ := o
  by_cases hcred : cfg.user ≠ "" ∧ cfg.password ≠ "" <;>
    cases c <;> cases st <;> cases lo <;> cases se <;>
      simp [smtpDeliver, hcred, List.getLast?]
  all_goals tauto

/-- C8 witness: on the all-success transport with both credentials
configured, delivery succeeds with the exact step sequence
connect, starttls, login, send, close. -/
theorem smtp_delivery_lifecycle_witness :
    (smtpDeliver sampleCfg sampleOracle).1 = .ok () ∧
    (smtpDeliver sampleCfg sampleOracle).2 =
      [.connect sampleCfg.host sampleCfg.port, .starttls,
       .login sampleCfg.user sampleCfg.password, .sendMessage, .close] :=
  (smtp_delivery_lifecycle sampleCfg sampleOracle).2.2.2.2.1 rfl (by decide) (by decide)

/-- A digit character is not the dot. -/
theorem char_isDigit_ne_dot {c : Char} (h : c.isDigit = true) : c ≠ '.' := by
  intro he
  subst he
  exact absurd h (by decide)

/-- Removing the first dot from `digits ++ "." ++ rest` yields
`digits ++ rest`. -/
theorem removeFirstDot_digits_append (i d : List Char)
    (hi : ∀ c ∈ i, c.isDigit = true) :
    removeFirstDot (i ++ '.' :: d) = i ++ d := by
  induction i with
  | nil => simp [removeFirstDot]
  | cons c cs ih =>
    have hne : c ≠ '.' := char_isDigit_ne_dot (hi c (List.mem_cons_self c cs))
    simp only [List.cons_append, removeFirstDot, if_neg hne, List.append_eq]
    rw [ih (fun x hx => hi x (List.mem_cons_of_mem c hx))]

/-- Removing the first dot from an all-digit string changes nothing. -/
theorem removeFirstDot_digits (cs : List Char)
    (h : ∀ c ∈ cs, c.isDigit = true) :
    removeFirstDot cs = cs := by
  induction cs with
  | nil => rfl
  | cons c rest ih =>
    have hne : c ≠ '.' := char_isDigit_ne_dot (h c (List.mem_cons_self c rest))
    simp only [removeFirstDot, if_neg hne]
    rw [ih (fun x hx => h x (List.mem_cons_of_mem c hx))]

/-- An all-digit string has no dot. -/
theorem countDot_digits (cs : List Char) (h : ∀ c ∈ cs, c.isDigit = true) :
    countDot cs = 0 := by
  simp only [countDot, List.countP_eq_zero]
  intro a ha
  simpa using char_isDigit_ne_dot (h a ha)

/-- An all-digit string does not contain the dot. -/
theorem contains_dot_digits (cs : List Char) (h : ∀ c ∈ cs, c.isDigit = true) :
    cs.contains '.' = false := by
  induction cs with
  | nil => rfl
  | cons c rest ih =>
    have hne : ('.' : Char) ≠ c :=
      Ne.symm (char_isDigit_ne_dot (h c (List.mem_cons_self c rest)))
    have ih2 := ih (fun x hx => h x (List.mem_cons_of_mem c hx))
    simp only [List.contains_cons, ih2, Bool.or_false]
    simpa using hne

/-- `digits ++ "." ++ rest` contains the dot. -/
theorem contains_dot_append (i d : List Char) :
    (i ++ '.' :: d).contains '.' = true := by
  induction i with
  | nil => simp [List.contains_cons]
  | cons c cs ih => simp [List.contains_cons, ih]

/-- Splitting `digits ++ "." ++ rest` at the first dot yields the two
parts. -/
theorem splitFirstDot_digits_append (i d : List Char)
    (hi : ∀ c ∈ i, c.isDigit = true) :
    splitFirstDot (i ++ '.' :: d) = (i, d) := by
  induction i with
  | nil => simp [splitFirstDot]
  | cons c cs ih =>
    have hne : c ≠ '.' := char_isDigit_ne_dot (hi c (List.mem_cons_self c cs))
    simp only [List.cons_append, splitFirstDot, if_neg hne, List.append_eq]
    rw [ih (fun x hx => hi x (List.mem_cons_of_mem c hx))]

/-- On an all-digit list the strict parse succeeds with the decimal
value. -/
theorem parseNatAux_digits (cs : List Char)
    (h : ∀ c ∈ cs, c.isDigit = true) :
    ∀ n, parseNatAux n cs = some (digitsValAux n cs) := by
  induction cs with
  | nil => intro n; rfl
  | cons c rest ih =>
    intro n
    have hc : c.isDigit = true := h c (List.mem_cons_self c rest)
    show (if c.isDigit then parseNatAux (n * 10 + (c.toNat - '0'.toNat)) rest else none) =
        some (digitsValAux (n * 10 + (c.toNat - '0'.toNat)) rest)
    rw [if_pos hc]
    exact ih (fun x hx => h x (List.mem_cons_of_mem c hx)) _

/-- `int` on a non-empty all-digit string returns its decimal value. -/
theorem parseNatStrict_digits (cs : List Char) (h0 : cs ≠ [])
    (h : ∀ c ∈ cs, c.isDigit = true) :
    parseNatStrict cs = some (digitsVal cs) := by
  have he : cs.isEmpty = false := by
    cases cs with
    | nil => exact absurd rfl h0
    | cons a as => rfl
  simp only [parseNatStrict, he, Bool.false_eq_true, if_false, digitsVal]
  exact parseNatAux_digits cs h 0

/-- C4 counterexample: the cell value ".5" is a string parsing as a
non-negative decimal number with one decimal point — it passes the
renderer's own numeric-string guard (`replace('.', '', 1).isdigit()`
and at most one dot) — yet `build_html_table` does not render it with
grouping: `int("")` on the empty integer part raises `ValueError`, so
the render fails instead of producing a cell. -/
theorem build_html_table_dot5_counterexample :
    isdigitL (removeFirstDot ".5".data) = true ∧
    countDot ".5".data ≤ 1 ∧
    build_html_table [[("Amount", .pyStr ".5")]] =
      .error (.valueError "invalid literal for int() with base 10: ") :=
  ⟨rfl, by decide, rfl⟩

set_option maxRecDepth 8192 in
/-- C4 (amended): for every cell string of the form
`integer-part.decimal-part` or plain digits whose integer part is
NON-EMPTY, the renderer replaces the cell by the thousands-grouping of
the integer part's numeric value, preserving the decimal part
verbatim; in particular "1234.5" yields a cell containing "1,234.5".
(The original claim fails when the integer part is empty, e.g. ".5",
where the render raises instead.) -/
theorem numeric_string_cell_thousands_grouping :
    (∀ (s : String) (i d : List Char),
      s.data = i ++ '.' :: d → i ≠ [] →
      (∀ c ∈ i, c.isDigit = true) → (∀ c ∈ d, c.isDigit = true) →
      formatCell (.pyStr s) = .ok (natComma (digitsVal i) ++ "." ++ String.mk d)) ∧
    (∀ s : String, s.data ≠ [] → (∀ c ∈ s.data, c.isDigit = true) →
      formatCell (.pyStr s) = .ok (natComma (digitsVal s.data))) ∧
    (∃ html, build_html_table [[("Amount", .pyStr "1234.5")]] = .ok html ∧
      containsStr html "<td>1,234.5</td>" = true) := by
  refine ⟨?_, ?_, ⟨_, rfl, rfl⟩⟩
  · intro s i d hs hne hi hd
    have h1 : removeFirstDot s.data = i ++ d := by
      rw [hs]; exact removeFirstDot_digits_append i d hi
    have h2 : isdigitL (removeFirstDot s.data) = true := by
      rw [h1]
      simp only [isdigitL, Bool.and_eq_true, Bool.not_eq_true', List.all_eq_true]
      refine ⟨?_, ?_⟩
      · cases hi2 : i with
        | nil => exact absurd hi2 hne
        | cons a as => rfl
      · intro c hc
        rcases List.mem_append.mp hc with hm | hm
        exacts [hi c hm, hd c hm]
    have h3 : countDot s.data = 1 := by
      have h3i := countDot_digits i hi
      have h3d := countDot_digits d hd
      rw [hs]
      simp only [countDot, List.countP_append, List.countP_cons] at h3i h3d ⊢
      simp [h3i, h3d]
    have h4 : '.' ∈ s.data := by
      rw [hs]; simp
    have h5 : splitFirstDot s.data = (i, d) := by
      rw [hs]; exact splitFirstDot_digits_append i d hi
    have h6 : parseNatStrict i = some (digitsVal i) := parseNatStrict_digits i hne hi
    simp [formatCell, h2, h3, h4, h5, h6]
  · intro s hne hall
    have h1 : removeFirstDot s.data = s.data := removeFirstDot_digits s.data hall
    have h2 : isdigitL (removeFirstDot s.data) = true := by
      rw [h1]
      simp only [isdigitL, Bool.and_eq_true, Bool.not_eq_true', List.all_eq_true]
      refine ⟨?_, hall⟩
      cases hs2 : s.data with
      | nil => exact absurd hs2 hne
      | cons a as => rfl
    have h3 : countDot s.data = 0 := countDot_digits s.data hall
    have h4 : '.' ∉ s.data := fun hm => absurd (hall '.' hm) (by decide)
    have h6 : parseNatStrict s.data = some (digitsVal s.data) :=
      parseNatStrict_digits s.data hne hall
    simp [formatCell, h2, h3, h4, h6]

/-- C4 witness: the amended statement at "1234.5" — integer part
"1234", decimal part "5" — yields the grouped cell text. -/
theorem numeric_string_cell_thousands_grouping_witness :
    formatCell (.pyStr "1234.5") =
      .ok (natComma (digitsVal "1234".data) ++ "." ++ String.mk "5".data) :=
  numeric_string_cell_thousands_grouping.1 "1234.5" "1234".data "5".data rfl
    (by decide) (by decide) (by decide)

set_option maxRecDepth 8192 in
/-- C5: per-cell formatting priority of the table renderer — every
integer (and every float, via its decimal rendering) that is not a
boolean is grouped with thousands separators preserving the decimal
digits; every two-element list (never caught by the numeric or string
rules) renders as "first - second"; every other value falls through to
the default `str` form: booleans, lists of other lengths, and every
string failing the numeric-string guard
(`replace('.', '', 1).isdigit()` with at most one dot); and the
concrete example rows produce cells containing "1,234,567" and
"A - B". -/
theorem cell_formatting_priority :
    (∀ n : Int, formatCell (.pyInt n) = .ok (intComma n)) ∧
    (∀ (sg : Bool) (i : Nat) (f : String),
      formatCell (.pyFloat sg i f) = .ok (floatComma sg i f)) ∧
    (∀ a b : PyValue, formatCell (.pyList [a, b]) = .ok (pyStrOf a ++ " - " ++ pyStrOf b)) ∧
    (∀ bl : Bool, formatCell (.pyBool bl) = .ok (pyStrOf (.pyBool bl))) ∧
    (∀ xs : List PyValue, xs.length ≠ 2 →
      formatCell (.pyList xs) = .ok (pyStrOf (.pyList xs))) ∧
    (∀ s : String,
      (isdigitL (removeFirstDot s.data) && decide (countDot s.data ≤ 1)) = false →
      formatCell (.pyStr s) = .ok (pyStrOf (.pyStr s))) ∧
    (∃ html, build_html_table [[("Count", .pyInt 1234567)]] = .ok html ∧
      containsStr html "<td>1,234,567</td>" = true) ∧
    (∃ html, build_html_table [[("Range", .pyList [.pyStr "A", .pyStr "B"])]] = .ok html ∧
      containsStr html "<td>A - B</td>" = true) := by
  refine ⟨fun n => rfl, fun sg i f => rfl, fun a b => rfl, fun bl => rfl, ?_, ?_,
    ⟨_, rfl, rfl⟩, ⟨_, rfl, rfl⟩⟩
  · intro xs hxs
    simp only [formatCell]
    rw [dif_neg hxs]
  · intro s hguard
    simp [formatCell, hguard, pyStrOf]

/-- C5 witness: a list that is not two-element, and strings failing
the numeric-string guard ("hello"; "12.3.4" with two dots), all fall
through to the default `str` rendering. -/
theorem cell_formatting_priority_witness :
    formatCell (.pyList []) = .ok (pyStrOf (.pyList [])) ∧
    formatCell (.pyStr "hello") = .ok (pyStrOf (.pyStr "hello")) ∧
    formatCell (.pyStr "12.3.4") = .ok (pyStrOf (.pyStr "12.3.4")) :=
  ⟨cell_formatting_priority.2.2.2.2.1 [] (by decide),
   cell_formatting_priority.2.2.2.2.2.1 "hello" (by decide),
   cell_formatting_priority.2.2.2.2.2.1 "12.3.4" (by decide)⟩
